import Mathlib

/-!
Shallow embedding of the token-based authentication subsystem of
`src/server_token_auth.py`.

Conventions of the embedding:

* Process-wide configuration read from the environment at startup
  (`SECRET_KEY`, `ALGORITHM`, `ACCESS_TOKEN_EXPIRE_MINUTES`, `APP_USERNAME`,
  `HASHED_PASSWORD`) becomes an explicit `Config` value threaded through the
  functions that read those globals.
* Wall-clock time (`datetime.utcnow()`) becomes an explicit `now : Nat`
  argument, in seconds; a `timedelta` becomes a `Nat` number of seconds.
* The cryptographic primitives (bcrypt via passlib, HMAC signing via PyJWT)
  are modelled symbolically as ideal primitives: a digest or MAC is the
  injective pairing of its inputs, so two MACs are equal exactly when key and
  message are equal.  This is the standard symbolic abstraction of a
  collision-free MAC / hash.
* Python exceptions that the source lets propagate are modelled with
  `Except`.
-/

/-- A serialized claim payload, as a list of byte values. -/
abbrev Bytes := List Nat

/-- Symbolic space of stored password-hash strings.  A real stored hash is a
string; passlib first *identifies* the hash (recognizing the bcrypt format and
extracting the embedded salt) and only then verifies.  We model that string
space by its two relevant classes: a well-formed bcrypt hash carrying its salt
and digest, and any other (malformed) string. -/
inductive HashStr
  | bcrypt (salt : Nat) (digest : Nat × String)
  | malformed (raw : String)
deriving DecidableEq, Repr

/-- Ideal one-way bcrypt digest of a salt and a password, modelled as the
injective pairing of its inputs (symbolic collision-free hash). -/
def bcryptDigest (salt : Nat) (password : String) : Nat × String :=
  (salt, password)

/-- Errors raised by passlib itself.  Per passlib's documented behaviour,
`CryptContext.verify` raises `UnknownHashError` when the hash string cannot be
identified as one of the configured schemes (here: not a well-formed bcrypt
hash). -/
inductive PasslibError
  | unknownHash
deriving DecidableEq, Repr

/-- Model of `pwd_context.verify(plain, hash)` for
`CryptContext(schemes=["bcrypt"])`: identify the hash (raising
`UnknownHashError` on a malformed one), then recompute the digest with the
embedded salt and compare. -/
def pwdContextVerify (plain : String) : HashStr → Except PasslibError Bool
  | .bcrypt salt digest => .ok (decide (digest = bcryptDigest salt plain))
  | .malformed _ => .error .unknownHash

/-- Model of `pwd_context.hash(password)`: draw a fresh random salt and emit a
well-formed bcrypt hash embedding that salt.  The salt draw is made explicit
as an argument. -/
def pwdContextHash (password : String) (salt : Nat) : HashStr :=
  .bcrypt salt (bcryptDigest salt password)

/-- `verify_password` (src/server_token_auth.py:51): returns
`pwd_context.verify(plain_password, hashed_password)` with no exception
handling, so a passlib error propagates to the caller. -/
def verify_password (plain_password : String) (hashed_password : HashStr) :
    Except PasslibError Bool :=
  pwdContextVerify plain_password hashed_password

/-- `get_password_hash` (src/server_token_auth.py:65): returns
`pwd_context.hash(password)`; the fresh salt drawn inside passlib is an
explicit argument. -/
def get_password_hash (password : String) (salt : Nat) : HashStr :=
  pwdContextHash password salt

/-- A user record of the in-memory `users_db`
(src/server_token_auth.py:22-29). -/
structure UserRecord where
  username : String
  full_name : String
  hashed_password : HashStr
  disabled : Bool
deriving DecidableEq, Repr

/-- The process-wide configuration read from the environment at startup
(src/server_token_auth.py:14-16, 24, 26). -/
structure Config where
  secretKey : String
  algorithm : String
  accessTokenExpireMinutes : Nat
  appUsername : String
  hashedPassword : HashStr
deriving DecidableEq, Repr

/-- The single `UserRecord` stored in `users_db`
(src/server_token_auth.py:23-28).  Its `username` field is the configured
`APP_USERNAME`; `disabled` is the literal `False`. -/
def theUser (cfg : Config) : UserRecord :=
  { username := cfg.appUsername
    full_name := "Test User"
    hashed_password := cfg.hashedPassword
    disabled := false }

/-- The in-memory user "database" (src/server_token_auth.py:22-29): a mapping
from key to record, modelled as an association list.  Note the single entry is
keyed by the literal string "user", while the record's `username` field is the
configured `APP_USERNAME`. -/
def users_db (cfg : Config) : List (String × UserRecord) :=
  [("user", theUser cfg)]

/-- Python `dict.get(key)`: the value at `key`, or `None`. -/
def dictGet (db : List (String × UserRecord)) (key : String) :
    Option UserRecord :=
  (db.find? (fun p => p.1 == key)).map Prod.snd

/-- `authenticate_user` (src/server_token_auth.py:78-92), with the global
`users_db` passed explicitly.  Returns `some user` on success and `none` for
the Python `False`; an exception raised by `verify_password` (malformed stored
hash) propagates, hence the `Except`. -/
def authenticate_user (db : List (String × UserRecord))
    (username password : String) : Except PasslibError (Option UserRecord) :=
  match dictGet db username with
  | none => .ok none
  | some user =>
    match verify_password password user.hashed_password with
    | .error e => .error e
    | .ok matched => if matched then .ok (some user) else .ok none

/-- The JWT claim set the server works with: the optional subject claim "sub"
and the optional expiry claim "exp" (seconds timestamp). -/
structure Claims where
  sub : Option String
  exp : Option Nat
deriving DecidableEq, Repr

/-- Serialization of a claim set to payload bytes (the role of the JSON +
base64url encoding inside `jwt.encode`): each optional field is tagged, and a
string is length-prefixed followed by its character codes. -/
def serializeClaims (c : Claims) : Bytes :=
  (match c.sub with
   | none => [0]
   | some s => 1 :: s.data.length :: s.data.map Char.toNat) ++
  (match c.exp with
   | none => [0]
   | some e => [1, e])

/-- Decode `n` character codes from the front of a byte list. -/
def decodeChars : Nat → Bytes → Option (List Char × Bytes)
  | 0, rest => some ([], rest)
  | _ + 1, [] => none
  | n + 1, b :: rest =>
    (decodeChars n rest).map (fun p => (Char.ofNat b :: p.1, p.2))

/-- Decode the subject field from the front of the payload bytes. -/
def decodeSub : Bytes → Option (Option String × Bytes)
  | 0 :: rest => some (none, rest)
  | 1 :: n :: rest => (decodeChars n rest).map (fun p => (some ⟨p.1⟩, p.2))
  | _ => none

/-- Deserialization of payload bytes back to a claim set (the role of the
JSON parsing inside `jwt.decode`); `none` is a structurally malformed
payload. -/
def deserializeClaims (bs : Bytes) : Option Claims :=
  match decodeSub bs with
  | none => none
  | some (sub, rest) =>
    match rest with
    | [0] => some ⟨sub, none⟩
    | [1, e] => some ⟨sub, some e⟩
    | _ => none

/-- An HMAC tag, modelled symbolically: the tag determines and is determined
by the key, the algorithm identifier and the exact message bytes (ideal
unforgeable MAC, no collisions). -/
def hmacSign (secret algorithm : String) (message : Bytes) :
    String × String × Bytes :=
  (secret, algorithm, message)

/-- A serialized token as produced by `jwt.encode`: the claim payload bytes
together with the signature computed over exactly those bytes. -/
structure Token where
  payloadBytes : Bytes
  sig : String × String × Bytes
deriving DecidableEq, Repr

/-- Errors raised by `jwt.decode`; all are subclasses of `jwt.PyJWTError`. -/
inductive PyJWTError
  | invalidSignature
  | expiredSignature
  | decodeError
deriving DecidableEq, Repr

/-- Model of `jwt.encode(claims, secret, algorithm)`: serialize the claim set
and sign the payload bytes. -/
def jwtEncode (claims : Claims) (secret algorithm : String) : Token :=
  { payloadBytes := serializeClaims claims
    sig := hmacSign secret algorithm (serializeClaims claims) }

/-- Model of `jwt.decode(token, secret, algorithms=[algorithm])` evaluated at
time `now`: verify the signature over the presented payload bytes, then parse
the payload, then validate the "exp" claim when present.  The expiry
comparison is modelled from the spec (the repository does not pin the PyJWT
version, whose strictness at exactly `expiresAt` has varied): a token is valid
only while `now <= exp`, expired when `now > exp`. -/
def jwtDecode (token : Token) (secret algorithm : String) (now : Nat) :
    Except PyJWTError Claims :=
  if token.sig = hmacSign secret algorithm token.payloadBytes then
    match deserializeClaims token.payloadBytes with
    | none => .error .decodeError
    | some claims =>
      match claims.exp with
      | some e => if now > e then .error .expiredSignature else .ok claims
      | none => .ok claims
  else
    .error .invalidSignature

/-- `create_access_token` (src/server_token_auth.py:95-113): copy the payload,
set "exp" to `now + expires_delta` when a truthy (non-`None`, non-zero) delta
is supplied and to `now + 15 minutes` otherwise, and sign with the configured
secret and algorithm.  `expires_delta` is in seconds; `none` is Python
`None`. -/
def create_access_token (cfg : Config) (data : Claims)
    (expires_delta : Option Nat) (now : Nat) : Token :=
  let expire :=
    match expires_delta with
    | some d => if d = 0 then now + 15 * 60 else now + d
    | none => now + 15 * 60
  jwtEncode { data with exp := some expire } cfg.secretKey cfg.algorithm

/-- The `HTTPException` data observable by the client: status code, `detail`
body and response headers. -/
structure HTTPError where
  status_code : Nat
  detail : String
  headers : List (String × String)
deriving DecidableEq, Repr

/-- The single `credentials_exception` built in `get_current_user`
(src/server_token_auth.py:128-132). -/
def credentials_exception : HTTPError :=
  { status_code := 401
    detail := "Could not validate credentials"
    headers := [("WWW-Authenticate", "Bearer")] }

/-- `get_current_user` (src/server_token_auth.py:115-143), with the globals
passed explicitly and evaluated at time `now`: decode the token (any
`PyJWTError` is caught and replaced by `credentials_exception`), require a
"sub" claim, and resolve it in `users_db`; every failure path raises the one
`credentials_exception`. -/
def get_current_user (cfg : Config) (db : List (String × UserRecord))
    (token : Token) (now : Nat) : Except HTTPError UserRecord :=
  match jwtDecode token cfg.secretKey cfg.algorithm now with
  | .error _ => .error credentials_exception
  | .ok payload =>
    match payload.sub with
    | none => .error credentials_exception
    | some username =>
      match dictGet db username with
      | none => .error credentials_exception
      | some user => .ok user

/-- Outcome of the `POST /token` handler as seen from outside: a bearer token,
an `HTTPException` response, or an unhandled exception escaping the handler. -/
inductive LoginResult
  | success (access_token : Token) (token_type : String)
  | httpError (e : HTTPError)
  | unhandled (e : PasslibError)
deriving DecidableEq, Repr

/-- The `401` response raised by `login` on failed authentication
(src/server_token_auth.py:169-173). -/
def incorrect_credentials_error : HTTPError :=
  { status_code := 401
    detail := "Incorrect username or password"
    headers := [("WWW-Authenticate", "Bearer")] }

/-- The `login` handler for `POST /token` (src/server_token_auth.py:153-178):
authenticate, on falsy result raise 401, otherwise issue a token for subject
`user['username']` with lifetime `ACCESS_TOKEN_EXPIRE_MINUTES` minutes. -/
def login (cfg : Config) (username password : String) (now : Nat) :
    LoginResult :=
  match authenticate_user (users_db cfg) username password with
  | .error e => .unhandled e
  | .ok none => .httpError incorrect_credentials_error
  | .ok (some user) =>
    .success
      (create_access_token cfg { sub := some user.username, exp := none }
        (some (cfg.accessTokenExpireMinutes * 60)) now)
      "bearer"

/-- Alter a single byte of a token's claim payload, leaving its signature
unchanged (the tampering scenario of the spec's testable properties). -/
def tamperByte (token : Token) (i b : Nat) : Token :=
  { token with payloadBytes := token.payloadBytes.set i b }

/-- A concrete deployment configuration whose `APP_USERNAME` ("alice")
differs from the literal key "user" under which the single record is stored
in `users_db`. -/
def cfgMismatch : Config :=
  { secretKey := "configured-secret", algorithm := "HS256",
    accessTokenExpireMinutes := 30, appUsername := "alice",
    hashedPassword := .bcrypt 0 (bcryptDigest 0 "wonderland") }

/-- A concrete deployment configuration whose `APP_USERNAME` coincides with
the store key "user". -/
def cfgDemo : Config :=
  { secretKey := "configured-secret", algorithm := "HS256",
    accessTokenExpireMinutes := 30, appUsername := "user",
    hashedPassword := .bcrypt 0 (bcryptDigest 0 "wonderland") }

/-- A configuration for a validator holding a different signing secret than
`cfgDemo`. -/
def cfgOther : Config :=
  { secretKey := "other-secret", algorithm := "HS256",
    accessTokenExpireMinutes := 30, appUsername := "user",
    hashedPassword := .bcrypt 0 (bcryptDigest 0 "wonderland") }

/-- A concrete user record with `disabled = true` and a well-formed stored
hash of the password "hunter2". -/
def bobRecord : UserRecord :=
  { username := "bob", full_name := "Bob", disabled := true,
    hashed_password := .bcrypt 0 (bcryptDigest 0 "hunter2") }

/-- A token whose signature was not produced with the configured secret. -/
def garbledToken : Token :=
  { payloadBytes := [7, 7, 7], sig := ("forged", "HS256", [7, 7, 7]) }

/-- Decoding `n` character codes from an encoded character list recovers the
original characters and leaves the remainder untouched. -/
theorem decodeChars_roundtrip (cs : List Char) (rest : Bytes) :
    decodeChars cs.length (cs.map Char.toNat ++ rest) = some (cs, rest) := by
  induction cs with
  | nil => rfl
  | cons c cs ih => simp [decodeChars, ih, Char.ofNat_toNat]

/-- Decoding the serialized subject field recovers it and leaves the
remaining bytes untouched. -/
theorem decodeSub_roundtrip (sub : Option String) (rest : Bytes) :
    decodeSub ((match sub with
      | none => [0]
      | some s => 1 :: s.data.length :: s.data.map Char.toNat) ++ rest)
      = some (sub, rest) := by
  cases sub with
  | none => rfl
  | some s =>
    show decodeSub (1 :: s.data.length :: (s.data.map Char.toNat ++ rest)) = _
    simp only [decodeSub]
    rw [decodeChars_roundtrip]
    rfl

/-- Deserialization is a left inverse of claim-set serialization. -/
theorem deserialize_serialize (c : Claims) :
    deserializeClaims (serializeClaims c) = some c := by
  unfold serializeClaims deserializeClaims
  rw [decodeSub_roundtrip]
  cases c with
  | mk sub exp => cases exp <;> rfl

/-- Decoding a token encoded with the same secret and algorithm succeeds with
the original claim set, except when the "exp" claim lies in the past. -/
theorem jwtDecode_jwtEncode (secret algorithm : String) (c : Claims)
    (now : Nat) :
    jwtDecode (jwtEncode c secret algorithm) secret algorithm now =
      match c.exp with
      | some e => if now > e then .error .expiredSignature else .ok c
      | none => .ok c := by
  unfold jwtDecode jwtEncode
  simp [deserialize_serialize]

/-- Overwriting position `i` of a byte list with a byte different from the
one stored there yields a different list. -/
theorem set_ne_of_getD_ne (bs : Bytes) (i b : Nat) (hi : i < bs.length)
    (hb : bs.getD i 0 ≠ b) : bs.set i b ≠ bs := by
  induction bs generalizing i with
  | nil => simp at hi
  | cons x xs ih =>
    cases i with
    | zero =>
      intro h
      rw [List.set] at h
      have hbx : b = x := by simpa using congrArg (fun l => List.getD l 0 0) h
      exact hb hbx.symm
    | succ n =>
      intro h
      rw [List.set] at h
      have hx : xs.set n b = xs := by
        have := congrArg List.tail h
        simpa using this
      exact ih n (by simpa using hi) (by simpa [List.getD] using hb) hx

/-- A token created with a truthy (non-zero) `expires_delta` of `L` seconds
is the signed encoding of the input claims with "exp" set to `now + L`. -/
theorem create_access_token_some (cfg : Config) (data : Claims) (L now : Nat)
    (hL0 : L ≠ 0) :
    create_access_token cfg data (some L) now
      = jwtEncode { sub := data.sub, exp := some (now + L) }
          cfg.secretKey cfg.algorithm := by
  unfold create_access_token
  simp [hL0]

/-- Claim C1, counterexample: in the deployment `cfgMismatch` (where the
configured `APP_USERNAME` is "alice"), the user record stored in `users_db`
has username "alice"; a token created with subject equal to that username and
lifetime 60 s, validated at time 30 (strictly before expiry) with the same
secret and algorithm, is rejected with the credentials exception instead of
returning the record: `users_db.get` looks the subject up by dictionary key,
and the record is keyed by the literal "user", not by its username. -/
theorem roundtrip_fails_on_store_key_mismatch :
    (theUser cfgMismatch).username = "alice"
    ∧ dictGet (users_db cfgMismatch) "user" = some (theUser cfgMismatch)
    ∧ get_current_user cfgMismatch (users_db cfgMismatch)
        (create_access_token cfgMismatch
          { sub := some (theUser cfgMismatch).username, exp := none } (some 60) 0) 30
      = .error credentials_exception :=
  ⟨rfl, rfl, rfl⟩

/-- Claim C1 (amended): provided the configured `APP_USERNAME` equals the
literal store key "user" (so that looking the record's username up in
`users_db` finds the record again), a token produced by `create_access_token`
with subject `u.username` and truthy expiry delta `L`, passed to
`get_current_user` at any time strictly before `issuedAt + L` with the same
configured secret and algorithm, succeeds and returns exactly the stored user
record whose username is the token's subject. -/
theorem token_roundtrip (cfg : Config) (hu : cfg.appUsername = "user")
    (L now t : Nat) (hL : 0 < L) (ht : t < now + L) :
    get_current_user cfg (users_db cfg)
      (create_access_token cfg
        { sub := some (theUser cfg).username, exp := none } (some L) now) t
      = .ok (theUser cfg) := by
  have hL0 : L ≠ 0 := Nat.pos_iff_ne_zero.mp hL
  have hnt : ¬ t > now + L := by omega
  have htok : create_access_token cfg
      { sub := some (theUser cfg).username, exp := none } (some L) now
      = jwtEncode { sub := some (theUser cfg).username, exp := some (now + L) }
          cfg.secretKey cfg.algorithm := by
    unfold create_access_token
    simp [hL0]
  unfold get_current_user
  rw [htok, jwtDecode_jwtEncode]
  simp [hnt, theUser, users_db, dictGet, hu]

/-- Claim C1, witness: the round trip of `token_roundtrip` evaluated in the
concrete deployment `cfgDemo` with lifetime 60 s at validation time 30. -/
theorem token_roundtrip_witness :
    cfgDemo.appUsername = "user" ∧ 0 < 60 ∧ 30 < 0 + 60
    ∧ get_current_user cfgDemo (users_db cfgDemo)
        (create_access_token cfgDemo
          { sub := some (theUser cfgDemo).username, exp := none } (some 60) 0) 30
      = .ok (theUser cfgDemo) :=
  ⟨rfl, by decide, by decide,
    token_roundtrip cfgDemo rfl 60 0 30 (by decide) (by decide)⟩

/-- Claim C2: a token issued with truthy lifetime `L` carries the expiry
claim `now + L`; validating it at any time `t ≤ issuedAt + L` succeeds with
respect to expiry (the decode returns the claim set), and validating at any
time strictly later than `issuedAt + L` fails with the expired-signature
error — validation fails on expiry exactly when `now > expiresAt`.  The
expiry comparison of the model follows the spec's stated boundary, as the
repository does not pin the version of the JWT library performing it. -/
theorem token_expiry_boundary (cfg : Config) (data : Claims) (L now t : Nat)
    (hL : 0 < L) :
    (t ≤ now + L →
      jwtDecode (create_access_token cfg data (some L) now)
          cfg.secretKey cfg.algorithm t
        = .ok { sub := data.sub, exp := some (now + L) })
    ∧ (now + L < t →
      jwtDecode (create_access_token cfg data (some L) now)
          cfg.secretKey cfg.algorithm t
        = .error .expiredSignature) := by
  have hL0 : L ≠ 0 := Nat.pos_iff_ne_zero.mp hL
  rw [create_access_token_some cfg data L now hL0, jwtDecode_jwtEncode]
  constructor
  · intro h
    have hnt : ¬ t > now + L := by omega
    simp [hnt]
  · intro h
    simp [h]

/-- Claim C2, witness: a token with lifetime 60 s issued at time 0 still
validates at time 60 and is expired at time 61. -/
theorem token_expiry_boundary_witness :
    (0 : Nat) < 60
    ∧ ((60 : Nat) ≤ 0 + 60 →
      jwtDecode (create_access_token cfgDemo { sub := some "user", exp := none } (some 60) 0)
          cfgDemo.secretKey cfgDemo.algorithm 60
        = .ok { sub := some "user", exp := some (0 + 60) })
    ∧ ((0 : Nat) + 60 < 61 →
      jwtDecode (create_access_token cfgDemo { sub := some "user", exp := none } (some 60) 0)
          cfgDemo.secretKey cfgDemo.algorithm 61
        = .error .expiredSignature) :=
  ⟨by decide,
    (token_expiry_boundary cfgDemo { sub := some "user", exp := none } 60 0 60 (by decide)).1,
    (token_expiry_boundary cfgDemo { sub := some "user", exp := none } 60 0 61 (by decide)).2⟩

/-- Claim C3: altering any single byte of an issued token's claim payload
(expiry included) makes decoding fail with the invalid-signature error and
makes `get_current_user` reject the token with the credentials exception; so
does verifying against a configuration holding a different secret; and any
token `jwt.decode` accepts carries the MAC of the validator's configured
secret over exactly the presented payload bytes. -/
theorem signature_covers_payload (cfg cfgV : Config)
    (db : List (String × UserRecord)) (data : Claims) (L now t i b : Nat)
    (hsec : cfgV.secretKey ≠ cfg.secretKey)
    (hi : i < (create_access_token cfg data (some L) now).payloadBytes.length)
    (hb : (create_access_token cfg data (some L) now).payloadBytes.getD i 0 ≠ b) :
    jwtDecode (tamperByte (create_access_token cfg data (some L) now) i b)
        cfg.secretKey cfg.algorithm t = .error .invalidSignature
    ∧ get_current_user cfg db
        (tamperByte (create_access_token cfg data (some L) now) i b) t
      = .error credentials_exception
    ∧ jwtDecode (create_access_token cfg data (some L) now)
        cfgV.secretKey cfgV.algorithm t = .error .invalidSignature
    ∧ get_current_user cfgV db (create_access_token cfg data (some L) now) t
      = .error credentials_exception
    ∧ ∀ (token : Token) (c : Claims),
        jwtDecode token cfg.secretKey cfg.algorithm t = .ok c →
        token.sig = hmacSign cfg.secretKey cfg.algorithm token.payloadBytes := by
  have hsig : (create_access_token cfg data (some L) now).sig
      = hmacSign cfg.secretKey cfg.algorithm
          (create_access_token cfg data (some L) now).payloadBytes := rfl
  have h1 : jwtDecode (tamperByte (create_access_token cfg data (some L) now) i b)
      cfg.secretKey cfg.algorithm t = .error .invalidSignature := by
    unfold jwtDecode
    rw [if_neg]
    intro h
    have hmsg : (create_access_token cfg data (some L) now).payloadBytes
        = ((create_access_token cfg data (some L) now).payloadBytes).set i b :=
      congrArg (fun p => p.2.2) (hsig.symm.trans h)
    exact set_ne_of_getD_ne _ i b hi hb hmsg.symm
  have h3 : jwtDecode (create_access_token cfg data (some L) now)
      cfgV.secretKey cfgV.algorithm t = .error .invalidSignature := by
    unfold jwtDecode
    rw [if_neg]
    intro h
    have hkey : cfg.secretKey = cfgV.secretKey :=
      congrArg (fun p => p.1) (hsig.symm.trans h)
    exact hsec hkey.symm
  refine ⟨h1, ?_, h3, ?_, ?_⟩
  · unfold get_current_user
    rw [h1]
  · unfold get_current_user
    rw [h3]
  · intro token c h
    unfold jwtDecode at h
    by_cases hs : token.sig = hmacSign cfg.secretKey cfg.algorithm token.payloadBytes
    · exact hs
    · rw [if_neg hs] at h
      exact absurd h (by simp)

/-- Claim C3, witness: tampering byte 0 of a concrete issued token, and
validating the untampered token under the different secret of `cfgOther`,
are both rejected. -/
theorem signature_covers_payload_witness :
    cfgOther.secretKey ≠ cfgDemo.secretKey
    ∧ 0 < (create_access_token cfgDemo
        { sub := some "user", exp := none } (some 60) 0).payloadBytes.length
    ∧ (create_access_token cfgDemo
        { sub := some "user", exp := none } (some 60) 0).payloadBytes.getD 0 0 ≠ 99
    ∧ (jwtDecode (tamperByte (create_access_token cfgDemo
          { sub := some "user", exp := none } (some 60) 0) 0 99)
          cfgDemo.secretKey cfgDemo.algorithm 10 = .error .invalidSignature
      ∧ get_current_user cfgDemo (users_db cfgDemo)
          (tamperByte (create_access_token cfgDemo
            { sub := some "user", exp := none } (some 60) 0) 0 99) 10
        = .error credentials_exception
      ∧ jwtDecode (create_access_token cfgDemo
          { sub := some "user", exp := none } (some 60) 0)
          cfgOther.secretKey cfgOther.algorithm 10 = .error .invalidSignature
      ∧ get_current_user cfgOther (users_db cfgDemo)
          (create_access_token cfgDemo
            { sub := some "user", exp := none } (some 60) 0) 10
        = .error credentials_exception
      ∧ ∀ (token : Token) (c : Claims),
          jwtDecode token cfgDemo.secretKey cfgDemo.algorithm 10 = .ok c →
          token.sig = hmacSign cfgDemo.secretKey cfgDemo.algorithm
            token.payloadBytes) :=
  ⟨by decide, by decide, by decide,
    signature_covers_payload cfgDemo cfgOther (users_db cfgDemo)
      { sub := some "user", exp := none } 60 0 10 0 99
      (by decide) (by decide) (by decide)⟩

/-- Claim C4, counterexample: `bobRecord` is present in the store under its
username with `disabled = true`, yet `authenticate_user` with the correct
password "hunter2" returns the record rather than failing — the source never
consults the `disabled` flag. -/
theorem disabled_user_authenticates_cex :
    bobRecord.disabled = true
    ∧ dictGet [("bob", bobRecord)] "bob" = some bobRecord
    ∧ authenticate_user [("bob", bobRecord)] "bob" "hunter2"
        = .ok (some bobRecord) :=
  ⟨rfl, rfl, rfl⟩

/-- Claim C4 (amended): `authenticate_user` never consults the `disabled`
flag — for any store state, a present username whose record has
`disabled = true` still authenticates successfully with the correct password;
moreover, in the store the program actually builds from configuration,
`disabled` is hard-coded `false`, so no disabled record can exist and the
claimed rejection never materializes. -/
theorem authenticate_ignores_disabled (db : List (String × UserRecord))
    (username password : String) (u : UserRecord)
    (hu : dictGet db username = some u) (hd : u.disabled = true)
    (hv : verify_password password u.hashed_password = .ok true) :
    authenticate_user db username password = .ok (some u)
    ∧ ∀ (cfg : Config) (key : String) (w : UserRecord),
        dictGet (users_db cfg) key = some w → w.disabled = false := by
  constructor
  · simp only [authenticate_user, hu, hv, if_true]
  · intro cfg key w hw
    unfold dictGet users_db at hw
    cases hk : (("user" : String) == key) <;> simp [List.find?, hk] at hw
    rw [← hw]
    rfl

/-- Claim C4, witness: `authenticate_ignores_disabled` evaluated on the
concrete one-entry store holding the disabled record `bobRecord`. -/
theorem authenticate_ignores_disabled_witness :
    dictGet [("bob", bobRecord)] "bob" = some bobRecord
    ∧ bobRecord.disabled = true
    ∧ verify_password "hunter2" bobRecord.hashed_password = .ok true
    ∧ (authenticate_user [("bob", bobRecord)] "bob" "hunter2"
          = .ok (some bobRecord)
      ∧ ∀ (cfg : Config) (key : String) (w : UserRecord),
          dictGet (users_db cfg) key = some w → w.disabled = false) :=
  ⟨rfl, rfl, rfl,
    authenticate_ignores_disabled [("bob", bobRecord)] "bob" "hunter2"
      bobRecord rfl rfl rfl⟩

/-- Claim C5, counterexample: on a malformed stored hash, `verify_password`
does not return `false` — it raises passlib's `UnknownHashError`, which
propagates to its caller (there is no exception handling in the source). -/
theorem verify_password_raises_cex :
    verify_password "wonderland" (.malformed "not-a-bcrypt-hash")
      = .error .unknownHash :=
  rfl

/-- Claim C5 (amended): `verify_password` is total into booleans only on
well-formed (identifiable bcrypt) hashes; on every malformed hash string it
raises `UnknownHashError` to its caller instead of returning `false`. -/
theorem verify_password_totality (p raw : String) (salt : Nat)
    (digest : Nat × String) :
    verify_password p (.malformed raw) = .error .unknownHash
    ∧ ∃ b, verify_password p (.bcrypt salt digest) = .ok b :=
  ⟨rfl, ⟨decide (digest = bcryptDigest salt p), rfl⟩⟩

/-- Claim C6, counterexample: under `cfgDemo` the configured token lifetime
is 30 minutes, yet `create_access_token` called at time 0 without an explicit
`expires_delta` emits a token whose expiry claim is 900 s (the hard-coded 15
minutes of the source), not `0 + 30 * 60`. -/
theorem default_expiry_cex :
    cfgDemo.accessTokenExpireMinutes = 30
    ∧ jwtDecode (create_access_token cfgDemo
        { sub := some "user", exp := none } none 0)
        cfgDemo.secretKey cfgDemo.algorithm 0
      = .ok { sub := some "user", exp := some 900 }
    ∧ (900 : Nat) ≠ 0 + cfgDemo.accessTokenExpireMinutes * 60 :=
  ⟨rfl, rfl, by decide⟩

/-- Claim C6 (amended): when `create_access_token` is called without an
explicit `expires_delta`, the expiry of the resulting token is the hard-coded
`now + 15` minutes, independent of the configured
`ACCESS_TOKEN_EXPIRE_MINUTES` (which only the `/token` handler passes in
explicitly). -/
theorem default_expiry_hardcoded (cfg : Config) (data : Claims) (now : Nat) :
    jwtDecode (create_access_token cfg data none now)
        cfg.secretKey cfg.algorithm now
      = .ok { sub := data.sub, exp := some (now + 15 * 60) } := by
  have htok : create_access_token cfg data none now
      = jwtEncode { sub := data.sub, exp := some (now + 15 * 60) }
          cfg.secretKey cfg.algorithm := rfl
  rw [htok, jwtDecode_jwtEncode]
  have hn : ¬ now > now + 15 * 60 := by omega
  simp [hn]

/-- Claim C7: for any username absent from the credential store (with any
password) and any username present with a non-matching password against its
well-formed stored hash, `authenticate_user` returns the same falsy value, and
the `/token` login handler maps both to the identical 401 response with
detail "Incorrect username or password" and the bearer challenge header. -/
theorem login_indistinguishable (cfg : Config) (now : Nat)
    (uAbsent pAny uPresent pWrong : String) (u : UserRecord)
    (salt : Nat) (digest : Nat × String)
    (hAbsent : dictGet (users_db cfg) uAbsent = none)
    (hPresent : dictGet (users_db cfg) uPresent = some u)
    (hHash : u.hashed_password = .bcrypt salt digest)
    (hWrong : digest ≠ bcryptDigest salt pWrong) :
    authenticate_user (users_db cfg) uAbsent pAny = .ok none
    ∧ authenticate_user (users_db cfg) uPresent pWrong = .ok none
    ∧ login cfg uAbsent pAny now = login cfg uPresent pWrong now
    ∧ login cfg uAbsent pAny now = .httpError incorrect_credentials_error := by
  have h1 : authenticate_user (users_db cfg) uAbsent pAny = .ok none := by
    simp only [authenticate_user, hAbsent]
  have h2 : authenticate_user (users_db cfg) uPresent pWrong = .ok none := by
    simp only [authenticate_user, hPresent, verify_password, hHash,
      pwdContextVerify]
    simp [hWrong]
  have h3 : login cfg uAbsent pAny now = .httpError incorrect_credentials_error := by
    simp only [login, h1]
  have h4 : login cfg uPresent pWrong now = .httpError incorrect_credentials_error := by
    simp only [login, h2]
  exact ⟨h1, h2, h3.trans h4.symm, h3⟩

/-- Claim C7, witness: under `cfgDemo`, logging in as the unknown
"nosuchuser" and as the stored "user" with the wrong password produce the
identical 401 rejection. -/
theorem login_indistinguishable_witness :
    dictGet (users_db cfgDemo) "nosuchuser" = none
    ∧ dictGet (users_db cfgDemo) "user" = some (theUser cfgDemo)
    ∧ (theUser cfgDemo).hashed_password = .bcrypt 0 (bcryptDigest 0 "wonderland")
    ∧ bcryptDigest 0 "wonderland" ≠ bcryptDigest 0 "wrongpassword"
    ∧ (authenticate_user (users_db cfgDemo) "nosuchuser" "anything" = .ok none
      ∧ authenticate_user (users_db cfgDemo) "user" "wrongpassword" = .ok none
      ∧ login cfgDemo "nosuchuser" "anything" 0
          = login cfgDemo "user" "wrongpassword" 0
      ∧ login cfgDemo "nosuchuser" "anything" 0
          = .httpError incorrect_credentials_error) :=
  ⟨rfl, rfl, rfl, by decide,
    login_indistinguishable cfgDemo 0 "nosuchuser" "anything" "user"
      "wrongpassword" (theUser cfgDemo) 0 (bcryptDigest 0 "wonderland")
      rfl rfl rfl (by decide)⟩

/-- Claim C8: whenever `get_current_user` fails — malformed token, bad
signature, expired token, or unknown subject — the error it raises is the one
`credentials_exception`: HTTP 401 with detail "Could not validate
credentials" and header `WWW-Authenticate: Bearer`; no distinction among the
failure kinds is visible to the client. -/
theorem uniform_unauthorized_response (cfg : Config)
    (db : List (String × UserRecord)) (token : Token) (now : Nat)
    (e : HTTPError) (h : get_current_user cfg db token now = .error e) :
    e = credentials_exception
    ∧ e.status_code = 401
    ∧ e.detail = "Could not validate credentials"
    ∧ e.headers = [("WWW-Authenticate", "Bearer")] := by
  have he : e = credentials_exception := by
    unfold get_current_user at h
    split at h
    · injection h with h2
      exact h2.symm
    · split at h
      · injection h with h2
        exact h2.symm
      · split at h
        · injection h with h2
          exact h2.symm
        · exact absurd h (by simp)
  exact ⟨he, by rw [he]; rfl, by rw [he]; rfl, by rw [he]; rfl⟩

/-- Claim C8, witness: a token signed with a forged secret fails under
`cfgDemo`, and the failure is the uniform 401 credentials exception. -/
theorem uniform_unauthorized_response_witness :
    get_current_user cfgDemo (users_db cfgDemo) garbledToken 0
      = .error credentials_exception
    ∧ (credentials_exception = credentials_exception
      ∧ credentials_exception.status_code = 401
      ∧ credentials_exception.detail = "Could not validate credentials"
      ∧ credentials_exception.headers = [("WWW-Authenticate", "Bearer")]) :=
  ⟨rfl, uniform_unauthorized_response cfgDemo (users_db cfgDemo)
    garbledToken 0 credentials_exception rfl⟩

/-- Claim C9: for every plaintext `p`, verifying `p` against
`get_password_hash p` succeeds; and two hashing calls on the same `p` with
distinct (independently drawn) salts produce two different hash strings, each
of which verifies against `p`. -/
theorem hash_then_verify (p : String) (s1 s2 : Nat) (hs : s1 ≠ s2) :
    verify_password p (get_password_hash p s1) = .ok true
    ∧ verify_password p (get_password_hash p s2) = .ok true
    ∧ get_password_hash p s1 ≠ get_password_hash p s2 := by
  refine ⟨?_, ?_, ?_⟩
  · simp [verify_password, get_password_hash, pwdContextHash, pwdContextVerify]
  · simp [verify_password, get_password_hash, pwdContextHash, pwdContextVerify]
  · intro h
    unfold get_password_hash pwdContextHash at h
    injection h with h1 h2
    exact hs h1

/-- Claim C9, witness: `hash_then_verify` evaluated at the password
"wonderland" with the two salts 0 and 1. -/
theorem hash_then_verify_witness :
    (0 : Nat) ≠ 1
    ∧ (verify_password "wonderland" (get_password_hash "wonderland" 0) = .ok true
      ∧ verify_password "wonderland" (get_password_hash "wonderland" 1) = .ok true
      ∧ get_password_hash "wonderland" 0 ≠ get_password_hash "wonderland" 1) :=
  ⟨by decide, hash_then_verify "wonderland" 0 1 (by decide)⟩

/-- Claim C10: a token correctly signed with the configured secret and
unexpired but carrying no "sub" claim is rejected by `get_current_user` with
the same 401 credentials exception; and any accepted token decodes to a claim
set whose subject names the returned credential-store record. -/
theorem missing_subject_rejected (cfg : Config)
    (db : List (String × UserRecord)) (e t : Nat) (ht : t ≤ e) :
    get_current_user cfg db
        (jwtEncode { sub := none, exp := some e } cfg.secretKey cfg.algorithm) t
      = .error credentials_exception
    ∧ ∀ (token : Token) (user : UserRecord),
        get_current_user cfg db token t = .ok user →
        ∃ (c : Claims) (s : String),
          jwtDecode token cfg.secretKey cfg.algorithm t = .ok c
          ∧ c.sub = some s ∧ dictGet db s = some user := by
  constructor
  · unfold get_current_user
    rw [jwtDecode_jwtEncode]
    have hn : ¬ t > e := by omega
    simp [hn]
  · intro token user h
    unfold get_current_user at h
    split at h
    · exact absurd h (by simp)
    · rename_i payload hdec
      split at h
      · exact absurd h (by simp)
      · rename_i username hsub
        split at h
        · exact absurd h (by simp)
        · rename_i urec hget
          injection h with h2
          subst h2
          exact ⟨payload, username, hdec, hsub, hget⟩

/-- Claim C10, witness: `missing_subject_rejected` under `cfgDemo` for a
correctly signed subject-less token expiring at time 100, validated at
time 50. -/
theorem missing_subject_rejected_witness :
    (50 : Nat) ≤ 100
    ∧ (get_current_user cfgDemo (users_db cfgDemo)
          (jwtEncode { sub := none, exp := some 100 }
            cfgDemo.secretKey cfgDemo.algorithm) 50
        = .error credentials_exception
      ∧ ∀ (token : Token) (user : UserRecord),
          get_current_user cfgDemo (users_db cfgDemo) token 50 = .ok user →
          ∃ (c : Claims) (s : String),
            jwtDecode token cfgDemo.secretKey cfgDemo.algorithm 50 = .ok c
            ∧ c.sub = some s ∧ dictGet (users_db cfgDemo) s = some user) :=
  ⟨by decide,
    missing_subject_rejected cfgDemo (users_db cfgDemo) 100 50 (by decide)⟩
